import Mathlib

/-!
Verification of the olapy XMLA protocol front-end (`olapy/core/services/xmla.py`).

The development shallowly embeds the module: the two SOAP rpc bodies
`Discover` and `Execute` of `XmlaProviderService`, the `OPTIONS` preflight
short-circuit of `XmlaSoap11.create_in_document`, and the small helpers they
call.  Strings are Lean `String`s, the hand-built XML documents are modelled
as ordered trees, Python exceptions become an `Except` error channel, and the
shared mutable state (session id, active catalog, cube configuration) is
threaded explicitly.  Collaborator code that lives in sibling modules of the
repository (`xmla_discover_tools.py`, `xmla_execute_tools.py`, `models.py`,
`xmla_execute_xsds.py`) is modelled from the specification where the claims
need it; each such definition says so in its doc comment.
-/

/-! ## Generic string machinery (Python semantics) -/

/-- Model of Python's substring test `needle in hay` on the character list
level: `needle` occurs contiguously inside `hay`. -/
def infixOfChars (needle : List Char) : List Char → Bool
  | [] => needle.isEmpty
  | c :: rest => needle.isPrefixOf (c :: rest) || infixOfChars needle rest

/-- Model of Python's `needle in hay` for strings (case-sensitive contiguous
substring containment). -/
def strContains (hay needle : String) : Bool :=
  infixOfChars needle.data hay.data

/-- Model of Python's `str.lower` on one ASCII character. -/
def pyLowerChar (c : Char) : Char :=
  if 'A' ≤ c ∧ c ≤ 'Z' then Char.ofNat (c.toNat + 32) else c

/-- Model of Python's `str.lower` (the request-type vocabulary is ASCII). -/
def pyLower (s : String) : String :=
  String.mk (s.data.map pyLowerChar)

/-! ## Decimal rendering and zero padding (Python `strftime` semantics) -/

/-- Fuel-driven decimal rendering of a natural number, most significant digit
first, prepended to `acc`.  The fuel is always sufficient when called through
`natToDecimal`. -/
def natToDecimalCore : Nat → Nat → List Char → List Char
  | 0, _, acc => acc
  | fuel + 1, n, acc =>
    if n < 10 then Nat.digitChar (n % 10) :: acc
    else natToDecimalCore fuel (n / 10) (Nat.digitChar (n % 10) :: acc)

/-- Decimal rendering of a natural number (Python's `str(n)` for `n ≥ 0`). -/
def natToDecimal (n : Nat) : String :=
  String.mk (natToDecimalCore (n + 1) n [])

/-- Zero padding to a fixed field width, as Python's `%02d` / `%04d`
`strftime` directives do. -/
def zeroPad (width n : Nat) : String :=
  String.mk (List.replicate (width - (natToDecimal n).length) '0'
    ++ (natToDecimal n).data)

/-- The six components of a Python `datetime` value that
`strftime('%Y-%m-%dT%H:%M:%S')` consumes. -/
structure DateTime where
  year : Nat
  month : Nat
  day : Nat
  hour : Nat
  minute : Nat
  second : Nat
deriving DecidableEq, Repr

/-- The ranges Python's `datetime.now()` guarantees (stated loosely: the
format proofs only need the digit counts). -/
def DateTime.InRange (t : DateTime) : Prop :=
  t.year < 10000 ∧ t.month < 100 ∧ t.day < 100 ∧
    t.hour < 100 ∧ t.minute < 100 ∧ t.second < 100

instance (t : DateTime) : Decidable t.InRange := by
  unfold DateTime.InRange; infer_instance

/-- Model of `datetime.strftime('%Y-%m-%dT%H:%M:%S')` as used at
`xmla.py:151-160`: zero-padded fields, no timezone, no fractional seconds. -/
def strftime_YmdHMS (t : DateTime) : String :=
  zeroPad 4 t.year ++ "-" ++ zeroPad 2 t.month ++ "-" ++ zeroPad 2 t.day ++ "T"
    ++ zeroPad 2 t.hour ++ ":" ++ zeroPad 2 t.minute ++ ":" ++ zeroPad 2 t.second

/-! ## XML documents

`xmlwitch.Builder` produces an ordered tree of elements; `xml.write`
splices an already-rendered fragment.  We model the document as a tree and
keep spliced fragments opaque (`raw`). -/

inductive XmlNode where
  | elem (name : String) (attrs : List (String × String)) (children : List XmlNode)
  | text (s : String)
  | raw (fragment : String)

/-! ## Data model of the service (`models.py` is not among the sources) -/

/-- Modelled from the spec: `DiscoverRequest` from `models.py` (not among the
sources) carries the request type plus restriction and property mappings. -/
structure DiscoverRequest where
  RequestType : String
  Restrictions : List (String × String)
  Properties : List (String × String)
deriving DecidableEq, Repr

/-- Modelled from the spec: the `Command` member of an `ExecuteRequest`. -/
structure ExecCommand where
  Statement : String
deriving DecidableEq, Repr

/-- Modelled from the spec: the `PropertyList` member of the `Properties`
member of an `ExecuteRequest`. -/
structure ExecPropertyList where
  Catalog : String
deriving DecidableEq, Repr

/-- Modelled from the spec: the `Properties` member of an `ExecuteRequest`. -/
structure ExecProperties where
  PropertyList : ExecPropertyList
deriving DecidableEq, Repr

/-- Modelled from the spec: `ExecuteRequest` from `models.py` (not among the
sources) encapsulates `Command.Statement` and
`Properties.PropertyList.Catalog`. -/
structure ExecuteRequest where
  Command : ExecCommand
  Properties : ExecProperties
deriving DecidableEq, Repr

/-- The cube configuration as far as this layer reads it
(`executor.cube_config['xmla_authentication']`, `xmla.py:85`). -/
structure CubeConfig where
  xmla_authentication : Bool
deriving DecidableEq, Repr

/-- The shared per-process state: the `XmlaTools` instance stored in
`app.config['xmla_tools']` together with the executor state it owns.
`sessionId` is modelled from the spec: `XmlaTools.__init__` (in
`xmla_discover_tools.py`, not among the sources) draws it once at
construction; `xmla.py` itself only ever reads it. -/
structure ServiceState where
  sessionId : String
  selectedCatalog : Option String
  cube_config : Option CubeConfig
deriving DecidableEq, Repr

/-- The exceptions the embedded code can raise: the explicit
`InvalidCredentialsError` of `xmla.py:86-89`, and the `AttributeError` that
`getattr` at `xmla.py:92` raises for a method name that does not exist. -/
inductive ServiceFault where
  | invalidCredentials (fault_string : String)
  | attributeError (method_name : String)
deriving DecidableEq, Repr

/-- How the Discover dispatcher invokes the matched handler
(`xmla.py:94-96`): with no argument, or with the full request object. -/
inductive DispatchCall where
  | noArg (handler : String)
  | withRequest (handler : String) (req : DiscoverRequest)
deriving DecidableEq, Repr

/-! ## Discover (`xmla.py:71-96`) -/

/-- The closed vocabulary of Discover request types, as the spec's data model
lists it. -/
def requestTypeVocabulary : List String :=
  ["DISCOVER_DATASOURCES", "DISCOVER_PROPERTIES", "DISCOVER_SCHEMA_ROWSETS",
   "DISCOVER_LITERALS", "MDSCHEMA_SETS", "MDSCHEMA_KPIS", "DBSCHEMA_CATALOGS",
   "MDSCHEMA_CUBES", "DBSCHEMA_TABLES", "MDSCHEMA_MEASURES",
   "MDSCHEMA_DIMENSIONS", "MDSCHEMA_HIERARCHIES", "MDSCHEMA_LEVELS",
   "MDSCHEMA_MEASUREGROUPS", "MDSCHEMA_MEASUREGROUP_DIMENSIONS",
   "MDSCHEMA_PROPERTIES", "MDSCHEMA_MEMBERS"]

/-- Modelled from the spec: the handler methods that `XmlaTools` (defined in
`xmla_discover_tools.py`, not among the sources) exposes — one
`<request_type lowercased>_response` method per vocabulary entry.  `getattr`
at `xmla.py:92` succeeds exactly for these names. -/
def discoverHandlerNames : List String :=
  requestTypeVocabulary.map (fun rt => pyLower rt ++ "_response")

/-- The authorization condition of `xmla.py:85`: the cube configuration is
present (truthy), its `xmla_authentication` flag is set, and the raw HTTP
query string is not exactly `"admin"`. -/
def discoverAuthDenied (cube_config : Option CubeConfig) (query_string : String) : Bool :=
  match cube_config with
  | none => false
  | some config =>
      config.xmla_authentication && query_string != "admin"

/-- The fixed fault message of `xmla.py:87`. -/
def permissionDeniedMessage : String :=
  "You do not have permission to access this resource"

/-- The dispatch step of `Discover` (`xmla.py:91-96`): build the method name
by lowercasing the request type and appending `"_response"`, look it up with
`getattr` (an unknown name raises `AttributeError`), and call it — with no
argument exactly when the request type is the exact string
`"DISCOVER_DATASOURCES"`, with the full request object otherwise. -/
def discoverDispatch (request : DiscoverRequest) : Except ServiceFault DispatchCall :=
  let method_name := pyLower request.RequestType ++ "_response"
  if method_name ∈ discoverHandlerNames then
    if request.RequestType == "DISCOVER_DATASOURCES" then
      Except.ok (DispatchCall.noArg method_name)
    else
      Except.ok (DispatchCall.withRequest method_name request)
  else
    Except.error (ServiceFault.attributeError method_name)

/-- The `Discover` rpc body (`xmla.py:71-96`).  It first sets the output
session header from the process-wide `XmlaTools.session_id`, then applies the
authorization gate, then dispatches.  The returned pair is (output session
header, rpc result). -/
def Discover (s : ServiceState) (query_string : String) (request : DiscoverRequest) :
    String × Except ServiceFault DispatchCall :=
  let header := s.sessionId
  if discoverAuthDenied s.cube_config query_string then
    (header, Except.error (ServiceFault.invalidCredentials permissionDeniedMessage))
  else
    (header, discoverDispatch request)

/-! ## Execute (`xmla.py:106-172`) -/

/-- The six fragments that an `XmlaExecuteTools` instance renders for the
Execute response.  Modelled from the spec: `xmla_execute_tools.py` is not
among the sources, so the fragments are kept opaque. -/
structure XmlaExecuteTools where
  cellInfo : String
  axesInfo : String
  axesInfoSlicer : String
  xs0 : String
  slicerAxis : String
  cellData : String
deriving DecidableEq, Repr

/-- Modelled from the spec: `XmlaTools.change_catalogue` (defined in
`xmla_discover_tools.py`, not among the sources) switches the shared active
catalog of the executor to the requested catalog name. -/
def change_catalogue (s : ServiceState) (catalog : String) : ServiceState :=
  { s with selectedCatalog := some catalog }

/-- The `convert2formulas` decision of `xmla.py:131-134`: true exactly when
the statement text contains all three literal substrings. -/
def convert2formulas (mdx_query : String) : Bool :=
  ["WITH MEMBER", "strtomember", "[Measures].[XL_SD0]"].all
    (fun key => strContains mdx_query key)

/-- The Microsoft analysis-services engine namespace carried by the two cube
timestamps (`xmla.py:154,159`). -/
def engineNamespace : String :=
  "http://schemas.microsoft.com/analysisservices/2003/engine"

/-- What an `Execute` call did besides returning a document: the rendered
tree, the catalog it switched to (if any), and the (statement, flag) pair it
constructed `XmlaExecuteTools` with (if any). -/
structure ExecuteOutcome where
  xml : XmlNode
  catalogSwitch : Option String
  executorCall : Option (String × Bool)

/-- The `Execute` rpc body (`xmla.py:106-172`).  `mkExecuteTools` stands for
the `XmlaExecuteTools(executor, mdx_query, convert2formulas)` constructor,
`execute_xsd` for the static schema block imported from
`xmla_execute_xsds.py`, and `nowData`/`nowSchema` for the two `datetime.now()`
calls.  The query string is accepted (it is present on the transport context)
and ignored, as the source ignores it.  The returned tuple is (output session
header, rpc result carrying the outcome and the state after the call). -/
def Execute (mkExecuteTools : String → Bool → XmlaExecuteTools)
    (execute_xsd : String) (nowData nowSchema : DateTime)
    (s : ServiceState) (query_string : String) (request : ExecuteRequest) :
    String × Except ServiceFault (ExecuteOutcome × ServiceState) :=
  let header := s.sessionId
  let mdx_query := request.Command.Statement
  if mdx_query = "" then
    (header, Except.ok (
      { xml := XmlNode.elem "return" []
          [XmlNode.elem "root"
            [("xmlns", "urn:schemas-microsoft-com:xml-analysis:empty")] []],
        catalogSwitch := none,
        executorCall := none }, s))
  else
    let s1 := change_catalogue s request.Properties.PropertyList.Catalog
    let flag := convert2formulas mdx_query
    let tools := mkExecuteTools mdx_query flag
    (header, Except.ok (
      { xml := XmlNode.elem "return" []
          [XmlNode.elem "root"
            [("xmlns", "urn:schemas-microsoft-com:xml-analysis:mddataset"),
             ("xmlns:xsd", "http://www.w3.org/2001/XMLSchema"),
             ("xmlns:xsi", "http://www.w3.org/2001/XMLSchema-instance")]
            [XmlNode.raw execute_xsd,
             XmlNode.elem "OlapInfo" []
               [XmlNode.elem "CubeInfo" []
                  [XmlNode.elem "Cube" []
                     [XmlNode.elem "CubeName" [] [XmlNode.text "Sales"],
                      XmlNode.elem "LastDataUpdate"
                        [("xmlns", engineNamespace)]
                        [XmlNode.text (strftime_YmdHMS nowData)],
                      XmlNode.elem "LastSchemaUpdate"
                        [("xmlns", engineNamespace)]
                        [XmlNode.text (strftime_YmdHMS nowSchema)]]],
                XmlNode.raw tools.cellInfo,
                XmlNode.elem "AxesInfo" []
                  [XmlNode.raw tools.axesInfo,
                   XmlNode.raw tools.axesInfoSlicer]],
             XmlNode.elem "Axes" []
               [XmlNode.raw tools.xs0,
                XmlNode.raw tools.slicerAxis],
             XmlNode.elem "CellData" []
               [XmlNode.raw tools.cellData]]],
        catalogSwitch := some request.Properties.PropertyList.Catalog,
        executorCall := some (mdx_query, flag) }, s1))

/-! ## Transport preflight (`xmla.py:40-47`) -/

/-- What `XmlaSoap11.create_in_document` does before any SOAP parsing:
either short-circuit with a finished HTTP response, or fall through to
`Soap11.create_in_document`. -/
inductive InDocumentStep where
  | shortCircuit (status : Nat) (allowHeader : String) (body : String)
  | soap11Parse
deriving DecidableEq, Repr

/-- `XmlaSoap11.create_in_document` (`xmla.py:40-47`): on an HTTP transport
whose verb is `OPTIONS`, set the `Allow` header, respond `HTTP_200` with an
empty body and raise an empty `Fault` to abort processing; otherwise defer to
the stock SOAP 1.1 envelope parsing. -/
def create_in_document (isHttpTransport : Bool) (http_verb : String) : InDocumentStep :=
  if isHttpTransport then
    if http_verb == "OPTIONS" then
      InDocumentStep.shortCircuit 200 "POST, OPTIONS" ""
    else InDocumentStep.soap11Parse
  else InDocumentStep.soap11Parse

/-- The fate of an inbound call at the transport layer: a finished preflight
response, or envelope parsing followed by handler dispatch. -/
inductive PipelineResult where
  | preflight (status : Nat) (allowHeader : String) (body : String)
  | envelopeParsed (http_verb : String)
deriving DecidableEq, Repr

/-- The inbound pipeline: the Discover/Execute handlers run only when
`create_in_document` did not short-circuit. -/
def handleInbound (isHttpTransport : Bool) (http_verb : String) : PipelineResult :=
  match create_in_document isHttpTransport http_verb with
  | InDocumentStep.shortCircuit status allow body =>
      PipelineResult.preflight status allow body
  | InDocumentStep.soap11Parse => PipelineResult.envelopeParsed http_verb

/-! ## Spec-side response shapes (refinement targets for claim C1) -/

/-- The non-empty Execute response shape following the spec's words, with the
one amendment the code forces: a single `return`/`root` element whose root
declares the `mddataset` namespace plus the `xsd` and `xsi` prefixes, holding
in order the static XSD block, `OlapInfo` (`CubeInfo/Cube` with the fixed
cube name and the two engine-namespace timestamps, then the cell-info
fragment, then `AxesInfo` with the regular then the slicer axes-info
fragments), `Axes` (primary axis fragment then slicer axis fragment), and
`CellData` (cell-data fragment). -/
def specExecuteResponse (execute_xsd : String) (nowData nowSchema : DateTime)
    (tools : XmlaExecuteTools) : XmlNode :=
  XmlNode.elem "return" []
    [XmlNode.elem "root"
      [("xmlns", "urn:schemas-microsoft-com:xml-analysis:mddataset"),
       ("xmlns:xsd", "http://www.w3.org/2001/XMLSchema"),
       ("xmlns:xsi", "http://www.w3.org/2001/XMLSchema-instance")]
      [XmlNode.raw execute_xsd,
       XmlNode.elem "OlapInfo" []
         [XmlNode.elem "CubeInfo" []
            [XmlNode.elem "Cube" []
               [XmlNode.elem "CubeName" [] [XmlNode.text "Sales"],
                XmlNode.elem "LastDataUpdate" [("xmlns", engineNamespace)]
                  [XmlNode.text (strftime_YmdHMS nowData)],
                XmlNode.elem "LastSchemaUpdate" [("xmlns", engineNamespace)]
                  [XmlNode.text (strftime_YmdHMS nowSchema)]]],
          XmlNode.raw tools.cellInfo,
          XmlNode.elem "AxesInfo" []
            [XmlNode.raw tools.axesInfo,
             XmlNode.raw tools.axesInfoSlicer]],
       XmlNode.elem "Axes" []
         [XmlNode.raw tools.xs0,
          XmlNode.raw tools.slicerAxis],
       XmlNode.elem "CellData" []
         [XmlNode.raw tools.cellData]]]

/-- The non-empty Execute response shape exactly as claim C1 words it: same
document, but with `OlapInfo` holding the cell-info fragment first, then
`CubeInfo/Cube`, then `AxesInfo`. -/
def claimC1Response (execute_xsd : String) (nowData nowSchema : DateTime)
    (tools : XmlaExecuteTools) : XmlNode :=
  XmlNode.elem "return" []
    [XmlNode.elem "root"
      [("xmlns", "urn:schemas-microsoft-com:xml-analysis:mddataset"),
       ("xmlns:xsd", "http://www.w3.org/2001/XMLSchema"),
       ("xmlns:xsi", "http://www.w3.org/2001/XMLSchema-instance")]
      [XmlNode.raw execute_xsd,
       XmlNode.elem "OlapInfo" []
         [XmlNode.raw tools.cellInfo,
          XmlNode.elem "CubeInfo" []
            [XmlNode.elem "Cube" []
               [XmlNode.elem "CubeName" [] [XmlNode.text "Sales"],
                XmlNode.elem "LastDataUpdate" [("xmlns", engineNamespace)]
                  [XmlNode.text (strftime_YmdHMS nowData)],
                XmlNode.elem "LastSchemaUpdate" [("xmlns", engineNamespace)]
                  [XmlNode.text (strftime_YmdHMS nowSchema)]]],
          XmlNode.elem "AxesInfo" []
            [XmlNode.raw tools.axesInfo,
             XmlNode.raw tools.axesInfoSlicer]],
       XmlNode.elem "Axes" []
         [XmlNode.raw tools.xs0,
          XmlNode.raw tools.slicerAxis],
       XmlNode.elem "CellData" []
         [XmlNode.raw tools.cellData]]]

/-! ## Concrete sample inputs used by witnesses and counterexamples -/

def sampleState : ServiceState :=
  { sessionId := "4f51c2a9", selectedCatalog := none, cube_config := none }

def sampleAuthState : ServiceState :=
  { sessionId := "4f51c2a9", selectedCatalog := none,
    cube_config := some { xmla_authentication := true } }

def sampleTools : XmlaExecuteTools :=
  { cellInfo := "<CellInfo/>", axesInfo := "<AxisInfo/>",
    axesInfoSlicer := "<SlicerAxisInfo/>", xs0 := "<Axis0/>",
    slicerAxis := "<SlicerAxis/>", cellData := "<Cell/>" }

def sampleMkTools : String → Bool → XmlaExecuteTools := fun _ _ => sampleTools

def sampleDT : DateTime :=
  { year := 2017, month := 5, day := 3, hour := 14, minute := 7, second := 9 }

def sampleExecReq : ExecuteRequest :=
  { Command := { Statement := "SELECT FROM [sales]" },
    Properties := { PropertyList := { Catalog := "sales" } } }

def sampleEmptyExecReq : ExecuteRequest :=
  { Command := { Statement := "" },
    Properties := { PropertyList := { Catalog := "sales" } } }

def sampleDiscReq : DiscoverRequest :=
  { RequestType := "MDSCHEMA_CUBES", Restrictions := [], Properties := [] }

/-! ## Substring machinery: soundness against the mathematical notion -/

theorem infixOfChars_iff (needle : List Char) :
    ∀ l : List Char, infixOfChars needle l = true ↔ needle <:+: l := by
  intro l
  induction l with
  | nil => simp [infixOfChars, List.isEmpty_iff, List.infix_nil]
  | cons c rest ih =>
    simp [infixOfChars, Bool.or_eq_true, List.isPrefixOf_iff_prefix, ih,
      List.infix_cons_iff]

theorem strContains_iff (hay needle : String) :
    strContains hay needle = true ↔ needle.data <:+: hay.data :=
  infixOfChars_iff needle.data hay.data

theorem convert2formulas_iff (mdx_query : String) :
    convert2formulas mdx_query = true ↔
      ("WITH MEMBER".data <:+: mdx_query.data ∧
       "strtomember".data <:+: mdx_query.data ∧
       "[Measures].[XL_SD0]".data <:+: mdx_query.data) := by
  simp [convert2formulas, strContains_iff]

/-! ## Decimal rendering and timestamp format lemmas -/

theorem digitChar_isDigit {d : Nat} (h : d < 10) :
    (Nat.digitChar d).isDigit = true := by
  interval_cases d <;> decide

theorem natToDecimalCore_digits :
    ∀ (fuel n : Nat) (acc : List Char), (∀ c ∈ acc, c.isDigit = true) →
      ∀ c ∈ natToDecimalCore fuel n acc, c.isDigit = true := by
  intro fuel
  induction fuel with
  | zero => intro n acc hacc c hc; exact hacc c hc
  | succ fuel ih =>
    intro n acc hacc c hc
    have hd : (Nat.digitChar (n % 10)).isDigit = true :=
      digitChar_isDigit (Nat.mod_lt _ (by omega))
    by_cases hn : n < 10
    · simp only [natToDecimalCore, if_pos hn] at hc
      rcases List.mem_cons.mp hc with h | h
      · exact h ▸ hd
      · exact hacc c h
    · simp only [natToDecimalCore, if_neg hn] at hc
      refine ih (n / 10) _ ?_ c hc
      intro c' hc'
      rcases List.mem_cons.mp hc' with h | h
      · exact h ▸ hd
      · exact hacc c' h

theorem natToDecimal_digits (n : Nat) :
    ∀ c ∈ (natToDecimal n).data, c.isDigit = true := by
  intro c hc
  exact natToDecimalCore_digits (n + 1) n [] (by intro c h; cases h) c hc

theorem natToDecimalCore_length_le :
    ∀ (fuel k n : Nat) (acc : List Char), 1 ≤ k → n < 10 ^ k →
      (natToDecimalCore fuel n acc).length ≤ k + acc.length := by
  intro fuel
  induction fuel with
  | zero =>
    intro k n acc hk _
    simp only [natToDecimalCore]
    omega
  | succ fuel ih =>
    intro k n acc hk hn
    by_cases h10 : n < 10
    · simp only [natToDecimalCore, if_pos h10, List.length_cons]
      omega
    · simp only [natToDecimalCore, if_neg h10]
      rcases k with _ | k
      · omega
      rcases k with _ | k
      · exfalso
        have : n < 10 := by simpa using hn
        omega
      · have hsplit : (10 : Nat) ^ (k + 2) = 10 * 10 ^ (k + 1) := by ring
        have hdiv : n / 10 < 10 ^ (k + 1) :=
          Nat.div_lt_of_lt_mul (by omega)
        have := ih (k + 1) (n / 10) (Nat.digitChar (n % 10) :: acc)
          (by omega) hdiv
        simp only [List.length_cons] at this
        omega

theorem natToDecimal_length_le {k n : Nat} (hk : 1 ≤ k) (hn : n < 10 ^ k) :
    (natToDecimal n).length ≤ k := by
  have := natToDecimalCore_length_le (n + 1) k n [] hk hn
  simpa [natToDecimal, String.length] using this

theorem zeroPad_length {w n : Nat} (h : (natToDecimal n).length ≤ w) :
    (zeroPad w n).length = w := by
  simp only [zeroPad, String.length, List.length_append, List.length_replicate]
  have : (natToDecimal n).data.length = (natToDecimal n).length := rfl
  omega

theorem zeroPad_digits (w n : Nat) :
    ∀ c ∈ (zeroPad w n).data, c.isDigit = true := by
  intro c hc
  rcases List.mem_append.mp hc with h | h
  · have := List.eq_of_mem_replicate h
    subst this
    decide
  · exact natToDecimal_digits n c h

theorem strftime_length {t : DateTime} (h : t.InRange) :
    (strftime_YmdHMS t).length = 19 := by
  obtain ⟨hy, hmo, hd, hh, hmi, hs⟩ := h
  have ly : (natToDecimal t.year).length ≤ 4 :=
    natToDecimal_length_le (by omega) (by norm_num; omega)
  have lmo : (natToDecimal t.month).length ≤ 2 :=
    natToDecimal_length_le (by omega) (by norm_num; omega)
  have ld : (natToDecimal t.day).length ≤ 2 :=
    natToDecimal_length_le (by omega) (by norm_num; omega)
  have lh : (natToDecimal t.hour).length ≤ 2 :=
    natToDecimal_length_le (by omega) (by norm_num; omega)
  have lmi : (natToDecimal t.minute).length ≤ 2 :=
    natToDecimal_length_le (by omega) (by norm_num; omega)
  have ls : (natToDecimal t.second).length ≤ 2 :=
    natToDecimal_length_le (by omega) (by norm_num; omega)
  simp [strftime_YmdHMS, String.length_append, zeroPad_length ly,
    zeroPad_length lmo, zeroPad_length ld, zeroPad_length lh,
    zeroPad_length lmi, zeroPad_length ls,
    show ("-" : String).length = 1 from rfl,
    show ("T" : String).length = 1 from rfl,
    show (":" : String).length = 1 from rfl]

theorem strftime_chars (t : DateTime) :
    ∀ c ∈ (strftime_YmdHMS t).data,
      c.isDigit = true ∨ c = '-' ∨ c = 'T' ∨ c = ':' := by
  intro c hc
  simp only [strftime_YmdHMS, String.data_append,
    show ("-" : String).data = ['-'] from rfl,
    show ("T" : String).data = ['T'] from rfl,
    show (":" : String).data = [':'] from rfl,
    List.mem_append, List.mem_singleton] at hc
  rcases hc with ((((((((((h | h) | h) | h) | h) | h) | h) | h) | h) | h) | h)
  · exact Or.inl (zeroPad_digits 4 t.year c h)
  · exact Or.inr (Or.inl h)
  · exact Or.inl (zeroPad_digits 2 t.month c h)
  · exact Or.inr (Or.inl h)
  · exact Or.inl (zeroPad_digits 2 t.day c h)
  · exact Or.inr (Or.inr (Or.inl h))
  · exact Or.inl (zeroPad_digits 2 t.hour c h)
  · exact Or.inr (Or.inr (Or.inr h))
  · exact Or.inl (zeroPad_digits 2 t.minute c h)
  · exact Or.inr (Or.inr (Or.inr h))
  · exact Or.inl (zeroPad_digits 2 t.second c h)

/-! ## Helper lemmas about the rpc bodies -/

theorem discoverDispatch_no_credentials_fault (request : DiscoverRequest) (msg : String) :
    discoverDispatch request ≠ Except.error (ServiceFault.invalidCredentials msg) := by
  intro hcontra
  simp only [discoverDispatch] at hcontra
  split at hcontra
  · split at hcontra <;> simp at hcontra
  · simp at hcontra

theorem discoverAuthDenied_iff (cube_config : Option CubeConfig) (query_string : String) :
    discoverAuthDenied cube_config query_string = true ↔
      ∃ cfg, cube_config = some cfg ∧ cfg.xmla_authentication = true ∧
        query_string ≠ "admin" := by
  cases cube_config with
  | none => simp [discoverAuthDenied]
  | some cfg => simp [discoverAuthDenied, Bool.and_eq_true, bne_iff_ne]

theorem execute_nonempty_spec (mkExecuteTools : String → Bool → XmlaExecuteTools)
    (execute_xsd : String) (nowData nowSchema : DateTime) (s : ServiceState)
    (query_string : String) (request : ExecuteRequest)
    (h : request.Command.Statement ≠ "") :
    Execute mkExecuteTools execute_xsd nowData nowSchema s query_string request =
      (s.sessionId, Except.ok (
        { xml := specExecuteResponse execute_xsd nowData nowSchema
            (mkExecuteTools request.Command.Statement
              (convert2formulas request.Command.Statement)),
          catalogSwitch := some request.Properties.PropertyList.Catalog,
          executorCall := some (request.Command.Statement,
            convert2formulas request.Command.Statement) },
        change_catalogue s request.Properties.PropertyList.Catalog)) := by
  simp [Execute, h, specExecuteResponse]

/-! ## Claim theorems -/

/-- C2: an Execute call whose `Command.Statement` is the empty string returns
exactly the `<return><root xmlns="urn:schemas-microsoft-com:xml-analysis:empty"/></return>`
document, performs no catalog switch and no delegation to the query executor,
and leaves the shared catalog/query state unchanged. -/
theorem executeEmptyStatement (mkExecuteTools : String → Bool → XmlaExecuteTools)
    (execute_xsd : String) (nowData nowSchema : DateTime) (s : ServiceState)
    (query_string : String) (request : ExecuteRequest)
    (h : request.Command.Statement = "") :
    Execute mkExecuteTools execute_xsd nowData nowSchema s query_string request =
      (s.sessionId, Except.ok (
        { xml := XmlNode.elem "return" []
            [XmlNode.elem "root"
              [("xmlns", "urn:schemas-microsoft-com:xml-analysis:empty")] []],
          catalogSwitch := none,
          executorCall := none }, s)) := by
  simp [Execute, h]

theorem executeEmptyStatement_witness :
    sampleEmptyExecReq.Command.Statement = "" ∧
    Execute sampleMkTools "<xsd/>" sampleDT sampleDT sampleState "" sampleEmptyExecReq =
      (sampleState.sessionId, Except.ok (
        { xml := XmlNode.elem "return" []
            [XmlNode.elem "root"
              [("xmlns", "urn:schemas-microsoft-com:xml-analysis:empty")] []],
          catalogSwitch := none,
          executorCall := none }, sampleState)) :=
  ⟨rfl, executeEmptyStatement sampleMkTools "<xsd/>" sampleDT sampleDT sampleState ""
    sampleEmptyExecReq rfl⟩

/-- C3: for every non-empty Execute statement, the boolean handed to the
query-executor constructor is `convert2formulas` of the statement, which is
true iff the statement contains all three literal substrings `WITH MEMBER`,
`strtomember` and `[Measures].[XL_SD0]` (case-sensitive substring match); if
any one of the three is missing the flag is false. -/
theorem executeConvertToFormulas (mkExecuteTools : String → Bool → XmlaExecuteTools)
    (execute_xsd : String) (nowData nowSchema : DateTime) (s : ServiceState)
    (query_string : String) (request : ExecuteRequest)
    (h : request.Command.Statement ≠ "") :
    (∃ out s1,
      Execute mkExecuteTools execute_xsd nowData nowSchema s query_string request =
        (s.sessionId, Except.ok (out, s1)) ∧
      out.executorCall = some (request.Command.Statement,
        convert2formulas request.Command.Statement)) ∧
    (convert2formulas request.Command.Statement = true ↔
      ("WITH MEMBER".data <:+: request.Command.Statement.data ∧
       "strtomember".data <:+: request.Command.Statement.data ∧
       "[Measures].[XL_SD0]".data <:+: request.Command.Statement.data)) ∧
    (∀ needle ∈ (["WITH MEMBER", "strtomember", "[Measures].[XL_SD0]"] : List String),
      ¬ needle.data <:+: request.Command.Statement.data →
        convert2formulas request.Command.Statement = false) := by
  refine ⟨⟨_, _, execute_nonempty_spec mkExecuteTools execute_xsd nowData nowSchema s
    query_string request h, rfl⟩, convert2formulas_iff _, ?_⟩
  intro needle hneedle hnot
  rw [← Bool.not_eq_true]
  intro hflag
  have hall := (convert2formulas_iff request.Command.Statement).mp hflag
  simp only [List.mem_cons, List.not_mem_nil, or_false] at hneedle
  rcases hneedle with rfl | rfl | rfl
  · exact hnot hall.1
  · exact hnot hall.2.1
  · exact hnot hall.2.2

theorem executeConvertToFormulas_witness :
    sampleExecReq.Command.Statement ≠ "" ∧
    ((∃ out s1,
      Execute sampleMkTools "<xsd/>" sampleDT sampleDT sampleState "" sampleExecReq =
        (sampleState.sessionId, Except.ok (out, s1)) ∧
      out.executorCall = some (sampleExecReq.Command.Statement,
        convert2formulas sampleExecReq.Command.Statement)) ∧
    (convert2formulas sampleExecReq.Command.Statement = true ↔
      ("WITH MEMBER".data <:+: sampleExecReq.Command.Statement.data ∧
       "strtomember".data <:+: sampleExecReq.Command.Statement.data ∧
       "[Measures].[XL_SD0]".data <:+: sampleExecReq.Command.Statement.data)) ∧
    (∀ needle ∈ (["WITH MEMBER", "strtomember", "[Measures].[XL_SD0]"] : List String),
      ¬ needle.data <:+: sampleExecReq.Command.Statement.data →
        convert2formulas sampleExecReq.Command.Statement = false)) :=
  ⟨by decide, executeConvertToFormulas sampleMkTools "<xsd/>" sampleDT sampleDT
    sampleState "" sampleExecReq (by decide)⟩

/-- C4: Discover fails with the fixed InvalidCredentials protocol fault
exactly when the cube configuration is present, its `xmla_authentication`
flag is set, and the query string is not exactly `"admin"`; in every other
case the call proceeds to the dispatch step. -/
theorem discoverAuthGate (s : ServiceState) (query_string : String)
    (request : DiscoverRequest) :
    ((Discover s query_string request).2 =
        Except.error (ServiceFault.invalidCredentials permissionDeniedMessage) ↔
      ∃ cfg, s.cube_config = some cfg ∧ cfg.xmla_authentication = true ∧
        query_string ≠ "admin") ∧
    ((¬ ∃ cfg, s.cube_config = some cfg ∧ cfg.xmla_authentication = true ∧
        query_string ≠ "admin") →
      (Discover s query_string request).2 = discoverDispatch request) := by
  constructor
  · constructor
    · intro herr
      rw [← discoverAuthDenied_iff]
      by_contra hauth
      rw [Bool.not_eq_true] at hauth
      simp only [Discover, hauth, Bool.false_eq_true, if_false] at herr
      exact discoverDispatch_no_credentials_fault request _ herr
    · intro hcond
      rw [← discoverAuthDenied_iff] at hcond
      simp [Discover, hcond]
  · intro hncond
    have hauth : discoverAuthDenied s.cube_config query_string = false := by
      cases hb : discoverAuthDenied s.cube_config query_string with
      | false => rfl
      | true => exact absurd ((discoverAuthDenied_iff _ _).mp hb) hncond
    simp [Discover, hauth]

theorem discoverAuthGate_witness :
    (Discover sampleState "x" sampleDiscReq).2 = discoverDispatch sampleDiscReq ∧
    (Discover sampleAuthState "x" sampleDiscReq).2 =
      Except.error (ServiceFault.invalidCredentials permissionDeniedMessage) ∧
    (Discover sampleAuthState "admin" sampleDiscReq).2 = discoverDispatch sampleDiscReq := by
  have hno : ¬ ∃ cfg, sampleState.cube_config = some cfg ∧
      cfg.xmla_authentication = true ∧ ("x" : String) ≠ "admin" := by
    simp [sampleState]
  have hadmin : ¬ ∃ cfg, sampleAuthState.cube_config = some cfg ∧
      cfg.xmla_authentication = true ∧ ("admin" : String) ≠ "admin" := by
    simp
  exact ⟨(discoverAuthGate sampleState "x" sampleDiscReq).2 hno,
    (discoverAuthGate sampleAuthState "x" sampleDiscReq).1.mpr
      ⟨{ xmla_authentication := true }, rfl, rfl, by decide⟩,
    (discoverAuthGate sampleAuthState "admin" sampleDiscReq).2 hadmin⟩

/-- C8: an inbound HTTP OPTIONS request is answered at the transport layer
with status 200, the header `Allow: POST, OPTIONS` and an empty body, and
never reaches SOAP envelope parsing or the Discover/Execute handlers; every
other verb proceeds to normal envelope parsing unchanged. -/
theorem optionsPreflight (http_verb : String) :
    (http_verb = "OPTIONS" →
      handleInbound true http_verb = PipelineResult.preflight 200 "POST, OPTIONS" "") ∧
    (http_verb ≠ "OPTIONS" →
      handleInbound true http_verb = PipelineResult.envelopeParsed http_verb) := by
  constructor
  · intro h
    simp [handleInbound, create_in_document, h]
  · intro h
    simp [handleInbound, create_in_document, beq_eq_false_iff_ne.mpr h]

theorem optionsPreflight_witness :
    handleInbound true "OPTIONS" = PipelineResult.preflight 200 "POST, OPTIONS" "" ∧
    handleInbound true "POST" = PipelineResult.envelopeParsed "POST" :=
  ⟨(optionsPreflight "OPTIONS").1 rfl, (optionsPreflight "POST").2 (by decide)⟩

/-- C9: Execute performs no authorization check: whatever the cube
configuration and the HTTP query string, it never raises the
InvalidCredentials fault that gates Discover, it always succeeds with the
session header, and its result document is unaffected by changing both the
configuration and the query string. -/
theorem executeNoAuthGate (mkExecuteTools : String → Bool → XmlaExecuteTools)
    (execute_xsd : String) (nowData nowSchema : DateTime) (s : ServiceState)
    (query_string alt_query_string : String) (alt_config : Option CubeConfig)
    (request : ExecuteRequest) :
    (∀ msg, (Execute mkExecuteTools execute_xsd nowData nowSchema s
        query_string request).2 ≠
      Except.error (ServiceFault.invalidCredentials msg)) ∧
    (∃ out s1 s2,
      Execute mkExecuteTools execute_xsd nowData nowSchema s query_string request =
        (s.sessionId, Except.ok (out, s1)) ∧
      Execute mkExecuteTools execute_xsd nowData nowSchema
          { s with cube_config := alt_config } alt_query_string request =
        (s.sessionId, Except.ok (out, s2))) := by
  constructor
  · intro msg hcontra
    by_cases hc : request.Command.Statement = "" <;>
      simp [Execute, hc] at hcontra
  · by_cases hc : request.Command.Statement = ""
    · refine ⟨⟨XmlNode.elem "return"
          [] [XmlNode.elem "root"
          [("xmlns", "urn:schemas-microsoft-com:xml-analysis:empty")] []],
          none, none⟩, s, { s with cube_config := alt_config }, ?_, ?_⟩ <;>
        simp [Execute, hc]
    · exact ⟨_, _, _,
        execute_nonempty_spec mkExecuteTools execute_xsd nowData nowSchema s
          query_string request hc,
        execute_nonempty_spec mkExecuteTools execute_xsd nowData nowSchema
          { s with cube_config := alt_config } alt_query_string request hc⟩

theorem executeNoAuthGate_witness :
    (∀ msg, (Execute sampleMkTools "<xsd/>" sampleDT sampleDT sampleState
        "x" sampleExecReq).2 ≠
      Except.error (ServiceFault.invalidCredentials msg)) ∧
    (∃ out s1 s2,
      Execute sampleMkTools "<xsd/>" sampleDT sampleDT sampleState "x" sampleExecReq =
        (sampleState.sessionId, Except.ok (out, s1)) ∧
      Execute sampleMkTools "<xsd/>" sampleDT sampleDT
          { sampleState with cube_config := some { xmla_authentication := true } }
          "y" sampleExecReq =
        (sampleState.sessionId, Except.ok (out, s2))) :=
  executeNoAuthGate sampleMkTools "<xsd/>" sampleDT sampleDT sampleState "x" "y"
    (some { xmla_authentication := true }) sampleExecReq

/-- The Discover request used by the C5 counterexample and the C10 witness:
a lowercase variant of DISCOVER_DATASOURCES, outside the spec's closed
vocabulary of canonical request types. -/
def lowercaseDatasourcesReq : DiscoverRequest :=
  { RequestType := "discover_datasources", Restrictions := [], Properties := [] }

/-- C5 counterexample: the request type "discover_datasources" lies outside
the closed vocabulary, yet Discover answers it with a normally dispatched
response instead of a fault, because the lookup lowercases the name before
resolving the handler. -/
theorem discoverUnknownType_cex :
    "discover_datasources" ∉ requestTypeVocabulary ∧
    (Discover sampleState "" lowercaseDatasourcesReq).2 =
      Except.ok (DispatchCall.withRequest "discover_datasources_response"
        lowercaseDatasourcesReq) := by
  constructor
  · decide
  · rfl

/-- C5 (amended): a Discover call whose lowercased RequestType (with
`_response` appended) matches none of the handler methods is answered, when
the authorization gate passes, with an explicit AttributeError protocol
fault — never a silently empty, null or omitted response; request types that
reach the vocabulary only up to letter case resolve to a handler and do not
fault. -/
theorem discoverUnknownTypeFault (s : ServiceState) (query_string : String)
    (request : DiscoverRequest)
    (hun : pyLower request.RequestType ++ "_response" ∉ discoverHandlerNames)
    (hauth : discoverAuthDenied s.cube_config query_string = false) :
    (Discover s query_string request).2 =
      Except.error (ServiceFault.attributeError
        (pyLower request.RequestType ++ "_response")) := by
  simp [Discover, hauth, discoverDispatch, hun]

/-- The Discover request used by the C5 witness: a request type recognized by
no handler even after lowercasing. -/
def unknownTypeReq : DiscoverRequest :=
  { RequestType := "FOO", Restrictions := [], Properties := [] }

theorem discoverUnknownTypeFault_witness :
    pyLower unknownTypeReq.RequestType ++ "_response" ∉ discoverHandlerNames ∧
    discoverAuthDenied sampleState.cube_config "" = false ∧
    (Discover sampleState "" unknownTypeReq).2 =
      Except.error (ServiceFault.attributeError
        (pyLower unknownTypeReq.RequestType ++ "_response")) := by
  have h1 : pyLower unknownTypeReq.RequestType ++ "_response" ∉ discoverHandlerNames := by
    decide
  exact ⟨h1, rfl, discoverUnknownTypeFault sampleState "" unknownTypeReq h1 rfl⟩

/-- C6: for every RequestType in the closed vocabulary, dispatch (with the
authorization gate passing) selects the handler named by the lowercased
RequestType with `_response` appended; DISCOVER_DATASOURCES is the only type
whose handler is invoked with no argument, every other type's handler
receives the full request object. -/
theorem discoverDispatchKnown (s : ServiceState) (query_string : String)
    (request : DiscoverRequest)
    (hv : request.RequestType ∈ requestTypeVocabulary)
    (hauth : discoverAuthDenied s.cube_config query_string = false) :
    (Discover s query_string request).2 =
      Except.ok (if request.RequestType = "DISCOVER_DATASOURCES"
        then DispatchCall.noArg (pyLower request.RequestType ++ "_response")
        else DispatchCall.withRequest (pyLower request.RequestType ++ "_response")
          request) := by
  have hmem : pyLower request.RequestType ++ "_response" ∈ discoverHandlerNames :=
    List.mem_map_of_mem (fun rt => pyLower rt ++ "_response") hv
  simp only [Discover, hauth, Bool.false_eq_true, if_false]
  simp only [discoverDispatch, if_pos hmem]
  by_cases hd : request.RequestType = "DISCOVER_DATASOURCES"
  · simp [hd]
  · simp [beq_iff_eq, hd]

theorem discoverDispatchKnown_witness :
    sampleDiscReq.RequestType ∈ requestTypeVocabulary ∧
    discoverAuthDenied sampleState.cube_config "" = false ∧
    (Discover sampleState "" sampleDiscReq).2 =
      Except.ok (if sampleDiscReq.RequestType = "DISCOVER_DATASOURCES"
        then DispatchCall.noArg (pyLower sampleDiscReq.RequestType ++ "_response")
        else DispatchCall.withRequest (pyLower sampleDiscReq.RequestType ++ "_response")
          sampleDiscReq) :=
  ⟨by decide, rfl, discoverDispatchKnown sampleState "" sampleDiscReq (by decide) rfl⟩

/-- C10: a Discover call whose RequestType equals DISCOVER_DATASOURCES only
up to letter case resolves, through the lowercasing lookup, to the same
datasources handler, but — the zero-argument branch comparing the RequestType
case-sensitively against the exact string "DISCOVER_DATASOURCES" — the
handler is invoked with the request argument. -/
theorem discoverDatasourcesCaseVariant (s : ServiceState) (query_string : String)
    (request : DiscoverRequest)
    (hlow : pyLower request.RequestType = "discover_datasources")
    (hne : request.RequestType ≠ "DISCOVER_DATASOURCES")
    (hauth : discoverAuthDenied s.cube_config query_string = false) :
    (Discover s query_string request).2 =
      Except.ok (DispatchCall.withRequest "discover_datasources_response" request) := by
  simp only [Discover, hauth, Bool.false_eq_true, if_false]
  simp only [discoverDispatch, hlow]
  rw [if_pos (by decide)]
  simp [beq_iff_eq, hne]

theorem discoverDatasourcesCaseVariant_witness :
    pyLower lowercaseDatasourcesReq.RequestType = "discover_datasources" ∧
    lowercaseDatasourcesReq.RequestType ≠ "DISCOVER_DATASOURCES" ∧
    discoverAuthDenied sampleState.cube_config "" = false ∧
    (Discover sampleState "" lowercaseDatasourcesReq).2 =
      Except.ok (DispatchCall.withRequest "discover_datasources_response"
        lowercaseDatasourcesReq) :=
  ⟨by decide, by decide, rfl,
    discoverDatasourcesCaseVariant sampleState "" lowercaseDatasourcesReq
      (by decide) (by decide) rfl⟩

/-- C7: the output session header of every Discover and of every Execute call
equals the process-lifetime session id, and an Execute call leaves that id
unchanged in the shared state; hence any two calls (Discover or Execute, in
any order) within one process instance carry an identical SessionId header. -/
theorem sessionIdConstant (mkExecuteTools : String → Bool → XmlaExecuteTools)
    (execute_xsd : String) (nowData nowSchema : DateTime) (s s1 : ServiceState)
    (qsD qsE : String) (dreq : DiscoverRequest) (ereq : ExecuteRequest)
    (header : String) (out : ExecuteOutcome)
    (hexec : Execute mkExecuteTools execute_xsd nowData nowSchema s qsE ereq =
      (header, Except.ok (out, s1))) :
    (Discover s qsD dreq).1 = s.sessionId ∧
    header = s.sessionId ∧
    s1.sessionId = s.sessionId ∧
    (Discover s1 qsD dreq).1 = header ∧
    (Execute mkExecuteTools execute_xsd nowData nowSchema s1 qsE ereq).1 = header := by
  have hdisc : ∀ st : ServiceState, (Discover st qsD dreq).1 = st.sessionId := by
    intro st
    simp only [Discover]
    split <;> rfl
  have hfst : ∀ st : ServiceState,
      (Execute mkExecuteTools execute_xsd nowData nowSchema st qsE ereq).1 =
        st.sessionId := by
    intro st
    simp only [Execute]
    split <;> rfl
  have hhdr : header = s.sessionId := by
    rw [← hfst s, hexec]
  have hs1 : s1.sessionId = s.sessionId := by
    by_cases hc : ereq.Command.Statement = ""
    · simp only [Execute, if_pos hc] at hexec
      injection hexec with hA hB
      injection hB with hB
      injection hB with hOut hS
      rw [← hS]
    · simp only [Execute, if_neg hc] at hexec
      injection hexec with hA hB
      injection hB with hB
      injection hB with hOut hS
      rw [← hS]
      rfl
  exact ⟨hdisc s, hhdr, hs1, by rw [hdisc s1, hs1, hhdr],
    by rw [hfst s1, hs1, hhdr]⟩

theorem sessionIdConstant_witness :
    (Discover sampleState "" sampleDiscReq).1 = sampleState.sessionId ∧
    sampleState.sessionId = sampleState.sessionId ∧
    sampleState.sessionId = sampleState.sessionId ∧
    (Discover sampleState "" sampleDiscReq).1 = sampleState.sessionId ∧
    (Execute sampleMkTools "<xsd/>" sampleDT sampleDT sampleState ""
      sampleEmptyExecReq).1 = sampleState.sessionId :=
  sessionIdConstant sampleMkTools "<xsd/>" sampleDT sampleDT sampleState
    sampleState "" "" sampleDiscReq sampleEmptyExecReq sampleState.sessionId
    { xml := XmlNode.elem "return" []
        [XmlNode.elem "root"
          [("xmlns", "urn:schemas-microsoft-com:xml-analysis:empty")] []],
      catalogSwitch := none, executorCall := none }
    rfl

/-- C1 counterexample: at a concrete non-empty Execute call the produced
document places CubeInfo before the cell-info fragment inside OlapInfo
(xmla.py lines 147-161), while the claim requires the cell-info fragment
first; the two layouts are distinct documents. -/
theorem executeResponseOrder_cex :
    (Execute sampleMkTools "<xsd/>" sampleDT sampleDT sampleState ""
        sampleExecReq).2 =
      Except.ok (
        { xml := specExecuteResponse "<xsd/>" sampleDT sampleDT sampleTools,
          catalogSwitch := some "sales",
          executorCall := some ("SELECT FROM [sales]", false) },
        change_catalogue sampleState "sales") ∧
    specExecuteResponse "<xsd/>" sampleDT sampleDT sampleTools ≠
      claimC1Response "<xsd/>" sampleDT sampleDT sampleTools := by
  constructor
  · rfl
  · intro hcontra
    simp [specExecuteResponse, claimC1Response] at hcontra

/-- C1 (amended): for every Execute call with a non-empty statement, the
response is the single return/root document whose root declares the
mddataset namespace plus the xsd and xsi prefixes and contains, in order:
the static XSD block; OlapInfo holding CubeInfo/Cube (the fixed cube name
and the two timestamps LastDataUpdate and LastSchemaUpdate, each in the
Microsoft analysis-services engine namespace), then the cell-info fragment,
then AxesInfo with the regular then the slicer axes-info fragments; Axes
with the primary then the slicer axis fragments; and CellData with the
cell-data fragment — and both timestamps are formatted YYYY-MM-DDTHH:MM:SS
(19 characters from digits and the separators, hence no timezone suffix and
no fractional seconds). -/
theorem executeResponseStructure (mkExecuteTools : String → Bool → XmlaExecuteTools)
    (execute_xsd : String) (nowData nowSchema : DateTime) (s : ServiceState)
    (query_string : String) (request : ExecuteRequest)
    (h : request.Command.Statement ≠ "")
    (hD : nowData.InRange) (hS : nowSchema.InRange) :
    Execute mkExecuteTools execute_xsd nowData nowSchema s query_string request =
      (s.sessionId, Except.ok (
        { xml := specExecuteResponse execute_xsd nowData nowSchema
            (mkExecuteTools request.Command.Statement
              (convert2formulas request.Command.Statement)),
          catalogSwitch := some request.Properties.PropertyList.Catalog,
          executorCall := some (request.Command.Statement,
            convert2formulas request.Command.Statement) },
        change_catalogue s request.Properties.PropertyList.Catalog)) ∧
    (strftime_YmdHMS nowData).length = 19 ∧
    (strftime_YmdHMS nowSchema).length = 19 ∧
    (∀ c ∈ (strftime_YmdHMS nowData).data,
      c.isDigit = true ∨ c = '-' ∨ c = 'T' ∨ c = ':') ∧
    (∀ c ∈ (strftime_YmdHMS nowSchema).data,
      c.isDigit = true ∨ c = '-' ∨ c = 'T' ∨ c = ':') :=
  ⟨execute_nonempty_spec mkExecuteTools execute_xsd nowData nowSchema s
      query_string request h,
    strftime_length hD, strftime_length hS, strftime_chars nowData,
    strftime_chars nowSchema⟩

theorem executeResponseStructure_witness :
    sampleExecReq.Command.Statement ≠ "" ∧ sampleDT.InRange ∧
    (Execute sampleMkTools "<xsd/>" sampleDT sampleDT sampleState "q" sampleExecReq =
      (sampleState.sessionId, Except.ok (
        { xml := specExecuteResponse "<xsd/>" sampleDT sampleDT
            (sampleMkTools sampleExecReq.Command.Statement
              (convert2formulas sampleExecReq.Command.Statement)),
          catalogSwitch := some sampleExecReq.Properties.PropertyList.Catalog,
          executorCall := some (sampleExecReq.Command.Statement,
            convert2formulas sampleExecReq.Command.Statement) },
        change_catalogue sampleState sampleExecReq.Properties.PropertyList.Catalog)) ∧
    (strftime_YmdHMS sampleDT).length = 19 ∧
    (strftime_YmdHMS sampleDT).length = 19 ∧
    (∀ c ∈ (strftime_YmdHMS sampleDT).data,
      c.isDigit = true ∨ c = '-' ∨ c = 'T' ∨ c = ':') ∧
    (∀ c ∈ (strftime_YmdHMS sampleDT).data,
      c.isDigit = true ∨ c = '-' ∨ c = 'T' ∨ c = ':')) :=
  ⟨by decide, by decide,
    executeResponseStructure sampleMkTools "<xsd/>" sampleDT sampleDT sampleState
      "q" sampleExecReq (by decide) (by decide) (by decide)⟩
